import Mathlib

/-!
Verification of the MaidSafe-Network-Filesystem client code.

Part one embeds `HandleDeleteResponse` from `include/maidsafe/nfs/utils.h`:
the delete-response aggregation that counts successes and failures over a
list of serialised response messages and invokes an error functor when the
operation failed overall.

Part two embeds the `MaidNodeNfs` facade from
`src/maidsafe/nfs/client/maid_node_nfs.cc` (later revision): the
quorum-correlated operations (CreateAccount, RegisterPmid, GetPmidHealth),
the fire-and-forget operations (RemoveAccount, UnregisterPmid), the
`pmid_node_hint` accessors, and the free `CreateAccount` helper flow.
-/

namespace MaidsafeNfs

/-- One serialised delete-response message, modelled by the observable
outcome of constructing a `ReturnCode` from it (`ReturnCode` itself lives
outside `src/`): either the construction throws, or it yields the integer
`return_code.value()`. -/
inductive SerialisedMessage where
  | throws : SerialisedMessage
  | code : Int → SerialisedMessage
deriving DecidableEq

/-- Modelled from the spec: the numeric value of `CommonErrors::success`
(defined in maidsafe/common/error.h, which is not under `src/`). The
embedding only ever compares decoded return-code values with it for
equality, so its concrete value is irrelevant to the theorems below. -/
def commonErrorsSuccess : Int := 0

/-- Success test applied by the loop body of `HandleDeleteResponse`:
`static_cast<CommonErrors>(return_code.value()) == CommonErrors::success`;
a message whose `ReturnCode` construction throws is never a success. -/
def isSuccessMessage : SerialisedMessage → Bool
  | .throws => false
  | .code v => v = commonErrorsSuccess

/-- The `for` loop of `HandleDeleteResponse`: starting from the running
`success_count` and `failure_count`, each message either throws during
`ReturnCode` construction (the `catch` increments `failure_count` and the
loop continues) or yields a value compared with `CommonErrors::success`
(incrementing `success_count` on equality, `failure_count` otherwise). -/
def deleteResponseLoop (success_count failure_count : Nat) :
    List SerialisedMessage → Nat × Nat
  | [] => (success_count, failure_count)
  | .code v :: rest =>
      if v = commonErrorsSuccess then
        deleteResponseLoop (success_count + 1) failure_count rest
      else
        deleteResponseLoop success_count (failure_count + 1) rest
  | .throws :: rest => deleteResponseLoop success_count (failure_count + 1) rest

/-- Observable result of one call to `HandleDeleteResponse`: the final
counter values and the number of times `on_error_functor` was invoked
during the call. -/
structure DeleteResponseResult where
  success_count : Nat
  failure_count : Nat
  error_invocations : Nat
deriving DecidableEq

/-- `HandleDeleteResponse` from `include/maidsafe/nfs/utils.h`: if
`serialised_messages` is empty the error functor is invoked (the branch
does not return); the loop then counts successes and failures; finally, if
`success_count == 0`, the error functor is invoked (again). -/
def HandleDeleteResponse (serialised_messages : List SerialisedMessage) :
    DeleteResponseResult :=
  { success_count := (deleteResponseLoop 0 0 serialised_messages).1
    failure_count := (deleteResponseLoop 0 0 serialised_messages).2
    error_invocations :=
      (if serialised_messages.isEmpty then 1 else 0)
        + (if (deleteResponseLoop 0 0 serialised_messages).1 = 0 then 1 else 0) }

/-- The loop computes the running counters plus the number of success
messages and the number of non-success messages in the remaining list. -/
theorem deleteResponseLoop_eq (l : List SerialisedMessage)
    (success_count failure_count : Nat) :
    deleteResponseLoop success_count failure_count l
      = (success_count + l.countP isSuccessMessage,
         failure_count + l.countP (fun m => !isSuccessMessage m)) := by
  induction l generalizing success_count failure_count with
  | nil => simp [deleteResponseLoop]
  | cons m rest ih =>
    cases m with
    | throws =>
      simp [deleteResponseLoop, ih, List.countP_cons, isSuccessMessage, Prod.ext_iff]
      all_goals omega
    | code v =>
      by_cases hv : v = commonErrorsSuccess
      all_goals
        simp [deleteResponseLoop, ih, List.countP_cons, isSuccessMessage, hv,
          Prod.ext_iff]
      all_goals omega

/-- C1: evaluated at the failing input — for the empty message list,
`HandleDeleteResponse` invokes `on_error_functor` twice, not at most once:
the empty-list branch invokes it without returning, and the loop then leaves
`success_count == 0`, so the final branch invokes it a second time. -/
theorem handleDeleteResponse_empty_invokes_error_twice :
    (HandleDeleteResponse []).error_invocations = 2 := by decide

/-- The number of error functor invocations depends only on emptiness of the
input and on the count of success messages. -/
theorem handleDeleteResponse_error_invocations (msgs : List SerialisedMessage) :
    (HandleDeleteResponse msgs).error_invocations
      = (if msgs.isEmpty then 1 else 0)
        + (if msgs.countP isSuccessMessage = 0 then 1 else 0) := by
  simp [HandleDeleteResponse, deleteResponseLoop_eq]

/-- C2: `HandleDeleteResponse` invokes `on_error_functor` (at least once)
if and only if no message in the list decodes to a success return code; in
particular the empty list signals failure, and a list containing a decodable
success never has the error functor invoked. -/
theorem handleDeleteResponse_failure_iff_no_success
    (msgs : List SerialisedMessage) :
    0 < (HandleDeleteResponse msgs).error_invocations ↔
      ∀ m ∈ msgs, isSuccessMessage m = false := by
  rcases msgs with _ | ⟨m, rest⟩
  · simp [HandleDeleteResponse, deleteResponseLoop]
  · rw [handleDeleteResponse_error_invocations]
    have hne : ((m :: rest).isEmpty) = false := rfl
    rw [hne]
    simp only [if_neg Bool.false_ne_true, Nat.zero_add]
    constructor
    · intro hpos x hx
      have hzero : List.countP isSuccessMessage (m :: rest) = 0 := by
        by_contra hc
        simp [hc] at hpos
      simpa using List.countP_eq_zero.mp hzero x hx
    · intro hall
      have hzero : List.countP isSuccessMessage (m :: rest) = 0 :=
        List.countP_eq_zero.mpr fun a ha => by simp [hall a ha]
      simp [hzero]

/-- C3: a message whose `ReturnCode` construction throws is counted as
exactly one failure — removing it from the list leaves `success_count`
unchanged and decreases `failure_count` by one — and processing continues
over the surrounding messages (the counts over `xs` and `ys` are still
accumulated), the call returning normally in the embedding. -/
theorem handleDeleteResponse_throwing_message_counts_one_failure
    (xs ys : List SerialisedMessage) :
    (HandleDeleteResponse (xs ++ SerialisedMessage.throws :: ys)).success_count
        = (HandleDeleteResponse (xs ++ ys)).success_count
      ∧ (HandleDeleteResponse (xs ++ SerialisedMessage.throws :: ys)).failure_count
        = (HandleDeleteResponse (xs ++ ys)).failure_count + 1 := by
  simp [HandleDeleteResponse, deleteResponseLoop_eq, List.countP_append,
    List.countP_cons, isSuccessMessage]
  omega

/-- C4: `HandleDeleteResponse` is order-independent — any two permutations
of the same multiset of serialised messages produce the same
`success_count`, the same `failure_count`, and the same number of error
functor invocations. -/
theorem handleDeleteResponse_perm_invariant {l₁ l₂ : List SerialisedMessage}
    (h : l₁.Perm l₂) : HandleDeleteResponse l₁ = HandleDeleteResponse l₂ := by
  have hs := h.countP_eq isSuccessMessage
  have hf := h.countP_eq (fun m => !isSuccessMessage m)
  have hlen := h.length_eq
  have hempty : l₁.isEmpty = l₂.isEmpty := by
    cases l₁ <;> cases l₂ <;> simp_all
  simp [HandleDeleteResponse, deleteResponseLoop_eq, hs, hf, hempty]

/-- Witness for C4 at a concrete permutation pair. -/
theorem handleDeleteResponse_perm_invariant_witness :
    HandleDeleteResponse [SerialisedMessage.code 0, SerialisedMessage.throws]
      = HandleDeleteResponse [SerialisedMessage.throws, SerialisedMessage.code 0] :=
  handleDeleteResponse_perm_invariant
    (List.Perm.swap SerialisedMessage.throws (SerialisedMessage.code 0) [])

/-- Response-type channels of the facade: one `routing::Timer` member of
`MaidNodeNfs` per response type (later revision of `maid_node_nfs.cc`). -/
inductive TimerId where
  | get
  | put
  | get_versions
  | get_branch
  | create_account
  | pmid_health
  | create_version_tree
  | put_version
  | register_pmid
deriving DecidableEq

/-- One pending task registered with a timer: the correlation id, the
timeout and expected response count handed to `AddTask`, and the success
threshold of the `nfs::OpData` aggregator captured by the task's response
functor. -/
structure TimerTask where
  task_id : Nat
  timeout : Nat
  expected_count : Nat
  op_threshold : Nat
deriving DecidableEq

/-- Modelled from the spec: `routing::Timer`, the PendingOperationTable and
CorrelationAllocator of one response-type channel, is not under `src/`.
`next_task_id` is the allocator state and `tasks` the live pending
entries. -/
structure Timer where
  next_task_id : Nat
  tasks : List TimerTask
deriving DecidableEq

/-- Modelled from the spec: `Timer::NewTaskId` generates a unique,
monotonically distinct operation identifier for this channel, never one
currently in use by a live pending entry of this channel. -/
def Timer.NewTaskId (t : Timer) : Nat × Timer :=
  (t.next_task_id, { t with next_task_id := t.next_task_id + 1 })

/-- Modelled from the spec: `Timer::AddTask` registers a pending entry with
the supplied timeout, response functor (represented by its aggregator
threshold) and expected response count under the given task id. -/
def Timer.AddTask (t : Timer) (timeout op_threshold expected_count task_id : Nat) :
    Timer :=
  { t with tasks := t.tasks ++ [⟨task_id, timeout, expected_count, op_threshold⟩] }

/-- Requests handed to the `MaidNodeDispatcher` by the facade operations.
Payload values (account creation data, registrations, names) are opaque and
modelled as `Nat`. -/
inductive Request where
  | create_account_request (task_id : Nat) (account_creation : Nat)
  | remove_account_request (account_removal : Nat)
  | register_pmid_request (task_id : Nat) (pmid_registration : Nat)
  | unregister_pmid_request (pmid_name : Nat)
  | pmid_health_request (task_id : Nat) (pmid_name : Nat)
deriving DecidableEq

/-- Observable effects of one facade call, in program order: a task-id
allocation on a channel, a task registration on a channel, or a dispatcher
send. -/
inductive Effect where
  | new_task_id (channel : TimerId) (id : Nat)
  | add_task (channel : TimerId) (timeout op_threshold expected_count task_id : Nat)
  | send (r : Request)
deriving DecidableEq

/-- State of the future returned by a quorum-correlated facade call: the
underlying promise is either untouched (`pending`) or has been fulfilled
(`resolved`). The response functor that fulfils it runs only when the timer
later delivers responses, never inside the call itself. -/
inductive FutureState where
  | pending
  | resolved
deriving DecidableEq

/-- State of one `MaidNodeNfs` instance: its per-channel timers and the
stored `pmid_node_hint_` (an opaque identity value, modelled as `Nat`). -/
structure MaidNodeNfs where
  timers : TimerId → Timer
  pmid_node_hint_ : Nat

/-- The `MaidNodeNfs` constructor: every timer starts fresh and the
`pmid_node_hint` argument is stored in `pmid_node_hint_`. -/
def MaidNodeNfs.construct (pmid_node_hint : Nat) : MaidNodeNfs :=
  { timers := fun _ => ⟨0, []⟩, pmid_node_hint_ := pmid_node_hint }

/-- `MaidNodeNfs::pmid_node_hint`: returns the stored hint (the mutex only
serialises access and has no sequential effect). -/
def MaidNodeNfs.pmid_node_hint (st : MaidNodeNfs) : Nat :=
  st.pmid_node_hint_

/-- `MaidNodeNfs::set_pmid_node_hint`: overwrites the stored hint. -/
def MaidNodeNfs.set_pmid_node_hint (st : MaidNodeNfs) (pmid_node_hint : Nat) :
    MaidNodeNfs :=
  { st with pmid_node_hint_ := pmid_node_hint }

/-- Replaces the state of one timer member. -/
def MaidNodeNfs.setTimer (st : MaidNodeNfs) (c : TimerId) (t : Timer) : MaidNodeNfs :=
  { st with timers := Function.update st.timers c t }

/-- `MaidNodeNfs::CreateAccount`: constructs an `OpData` aggregator with
success threshold `group_size - 1`, allocates a task id from
`create_account_timer_`, registers the task on `create_account_timer_` with
expected response count `group_size * 2`, dispatches the request carrying
the task id, and returns the still-unresolved future of the fresh
promise. -/
def MaidNodeNfs.CreateAccount (group_size : Nat) (st : MaidNodeNfs)
    (account_creation timeout : Nat) :
    MaidNodeNfs × List Effect × FutureState :=
  let op_threshold := group_size - 1
  let alloc := (st.timers TimerId.create_account).NewTaskId
  let task_id := alloc.1
  let st₁ := st.setTimer TimerId.create_account alloc.2
  let st₂ := st₁.setTimer TimerId.create_account
    ((st₁.timers TimerId.create_account).AddTask timeout op_threshold
      (group_size * 2) task_id)
  (st₂,
   [Effect.new_task_id TimerId.create_account task_id,
    Effect.add_task TimerId.create_account timeout op_threshold (group_size * 2)
      task_id,
    Effect.send (Request.create_account_request task_id account_creation)],
   FutureState.pending)

/-- `MaidNodeNfs::RemoveAccount`: a single dispatcher send of the account
removal; no task id is allocated, no timer task is registered, the state is
unchanged and nothing is awaited. -/
def MaidNodeNfs.RemoveAccount (st : MaidNodeNfs) (account_removal : Nat) :
    MaidNodeNfs × List Effect :=
  (st, [Effect.send (Request.remove_account_request account_removal)])

/-- `MaidNodeNfs::RegisterPmid`: constructs an `OpData` aggregator with
success threshold `group_size - 1`, allocates a task id from
`create_account_timer_` (as the source does), registers the task on
`register_pmid_timer_` with expected response count `group_size - 1`,
dispatches the request, and returns the still-unresolved future. -/
def MaidNodeNfs.RegisterPmid (group_size : Nat) (st : MaidNodeNfs)
    (pmid_registration timeout : Nat) :
    MaidNodeNfs × List Effect × FutureState :=
  let op_threshold := group_size - 1
  let alloc := (st.timers TimerId.create_account).NewTaskId
  let task_id := alloc.1
  let st₁ := st.setTimer TimerId.create_account alloc.2
  let st₂ := st₁.setTimer TimerId.register_pmid
    ((st₁.timers TimerId.register_pmid).AddTask timeout op_threshold
      (group_size - 1) task_id)
  (st₂,
   [Effect.new_task_id TimerId.create_account task_id,
    Effect.add_task TimerId.register_pmid timeout op_threshold (group_size - 1)
      task_id,
    Effect.send (Request.register_pmid_request task_id pmid_registration)],
   FutureState.pending)

/-- `MaidNodeNfs::UnregisterPmid`: a single dispatcher send of the pmid
name; no task id is allocated, no timer task is registered, the state is
unchanged and nothing is awaited. -/
def MaidNodeNfs.UnregisterPmid (st : MaidNodeNfs) (pmid_name : Nat) :
    MaidNodeNfs × List Effect :=
  (st, [Effect.send (Request.unregister_pmid_request pmid_name)])

/-- `MaidNodeNfs::GetPmidHealth`: constructs an `OpData` aggregator with
success threshold `group_size - 1`, allocates a task id from
`pmid_health_timer_`, registers the task on `pmid_health_timer_` with
expected response count `group_size - 1`, dispatches the request, and
returns the still-unresolved future. -/
def MaidNodeNfs.GetPmidHealth (group_size : Nat) (st : MaidNodeNfs)
    (pmid_name timeout : Nat) :
    MaidNodeNfs × List Effect × FutureState :=
  let op_threshold := group_size - 1
  let alloc := (st.timers TimerId.pmid_health).NewTaskId
  let task_id := alloc.1
  let st₁ := st.setTimer TimerId.pmid_health alloc.2
  let st₂ := st₁.setTimer TimerId.pmid_health
    ((st₁.timers TimerId.pmid_health).AddTask timeout op_threshold
      (group_size - 1) task_id)
  (st₂,
   [Effect.new_task_id TimerId.pmid_health task_id,
    Effect.add_task TimerId.pmid_health timeout op_threshold (group_size - 1)
      task_id,
    Effect.send (Request.pmid_health_request task_id pmid_name)],
   FutureState.pending)

/-- Error codes relevant to the free `CreateAccount` helper. The codes come
from maidsafe/common/error.h, which is not under `src/`; the helper only
compares them for equality. -/
inductive VaultError where
  | failed_to_handle_request
  | account_already_exists
  | unique_data_clash
  | other_error (code : Nat)
deriving DecidableEq

/-- Outcome of the future awaited by the free `CreateAccount` helper:
`wait_for` reached its ten-second deadline, the future held a
`maidsafe_error`, it held some other exception, or it held a value. -/
inductive AwaitOutcome where
  | timed_out
  | threw_maidsafe (e : VaultError)
  | threw_unknown
  | has_value
deriving DecidableEq

/-- Result of the helper flow: either an exception propagates to the
caller, or the function returns normally together with the console lines it
printed on the way out. -/
inductive HelperResult where
  | thrown (e : VaultError)
  | returned (printed : List String)
deriving DecidableEq

/-- The free function `CreateAccount` of `maid_node_nfs.cc` (later
revision): on `wait_for` timeout it throws `failed_to_handle_request`; if
the future holds a `maidsafe_error` it catches it, prints a notice when the
code is `account_already_exists` or `unique_data_clash`, and returns; any
other exception is caught and reported; otherwise it reports the created
account. -/
def CreateAccount (outcome : AwaitOutcome) : HelperResult :=
  match outcome with
  | .timed_out => HelperResult.thrown VaultError.failed_to_handle_request
  | .threw_maidsafe e =>
      if e = VaultError.account_already_exists ∨ e = VaultError.unique_data_clash then
        HelperResult.returned ["account already existed"]
      else
        HelperResult.returned []
  | .threw_unknown => HelperResult.returned ["caught an unknown exception"]
  | .has_value => HelperResult.returned ["Account created"]

/-- C5: `RemoveAccount` and `UnregisterPmid` are fire-and-forget — each
call performs exactly one dispatcher send (its whole effect trace is that
single send, so no task id is allocated and no timer task is registered),
leaves the state untouched, and returns `Unit` with no future to await. -/
theorem removeAccount_unregisterPmid_fire_and_forget (st : MaidNodeNfs)
    (account_removal pmid_name : Nat) :
    st.RemoveAccount account_removal
        = (st, [Effect.send (Request.remove_account_request account_removal)])
      ∧ st.UnregisterPmid pmid_name
        = (st, [Effect.send (Request.unregister_pmid_request pmid_name)]) :=
  ⟨rfl, rfl⟩

/-- C6: each quorum-correlated call (`CreateAccount`, `RegisterPmid`,
`GetPmidHealth`) performs, in order, a task-id allocation, a timer-task
registration with the supplied timeout and its expected response count
under that id, and a dispatcher send carrying that id; the returned future
is still pending when the call returns. -/
theorem quorum_calls_allocate_register_dispatch (group_size : Nat)
    (st : MaidNodeNfs) (account_creation pmid_registration pmid_name timeout : Nat) :
    (MaidNodeNfs.CreateAccount group_size st account_creation timeout).2
        = ([Effect.new_task_id TimerId.create_account
              (st.timers TimerId.create_account).next_task_id,
            Effect.add_task TimerId.create_account timeout (group_size - 1)
              (group_size * 2) (st.timers TimerId.create_account).next_task_id,
            Effect.send (Request.create_account_request
              (st.timers TimerId.create_account).next_task_id account_creation)],
           FutureState.pending)
      ∧ (MaidNodeNfs.RegisterPmid group_size st pmid_registration timeout).2
        = ([Effect.new_task_id TimerId.create_account
              (st.timers TimerId.create_account).next_task_id,
            Effect.add_task TimerId.register_pmid timeout (group_size - 1)
              (group_size - 1) (st.timers TimerId.create_account).next_task_id,
            Effect.send (Request.register_pmid_request
              (st.timers TimerId.create_account).next_task_id pmid_registration)],
           FutureState.pending)
      ∧ (MaidNodeNfs.GetPmidHealth group_size st pmid_name timeout).2
        = ([Effect.new_task_id TimerId.pmid_health
              (st.timers TimerId.pmid_health).next_task_id,
            Effect.add_task TimerId.pmid_health timeout (group_size - 1)
              (group_size - 1) (st.timers TimerId.pmid_health).next_task_id,
            Effect.send (Request.pmid_health_request
              (st.timers TimerId.pmid_health).next_task_id pmid_name)],
           FutureState.pending) :=
  ⟨rfl, rfl, rfl⟩

/-- C7: evaluated at the failing input — a `RegisterPmid` call on a fresh
facade (peer-group size four) allocates its task id from the
create-account channel allocator yet registers the task with the
register-pmid channel timer: afterwards the register-pmid channel holds a
live entry under id zero while its own allocator has never allocated, so
the identifier it would allocate next is already in use by that live
entry. -/
theorem registerPmid_task_id_allocated_on_foreign_timer :
    (MaidNodeNfs.RegisterPmid 4 (MaidNodeNfs.construct 0) 7 10).2.1
        = [Effect.new_task_id TimerId.create_account 0,
           Effect.add_task TimerId.register_pmid 10 3 3 0,
           Effect.send (Request.register_pmid_request 0 7)]
      ∧ ((MaidNodeNfs.RegisterPmid 4 (MaidNodeNfs.construct 0) 7 10).1.timers
          TimerId.register_pmid)
        = { next_task_id := 0, tasks := [⟨0, 10, 3, 3⟩] }
      ∧ (((MaidNodeNfs.RegisterPmid 4 (MaidNodeNfs.construct 0) 7 10).1.timers
          TimerId.register_pmid).NewTaskId).1
        = 0 := by
  refine ⟨rfl, ?_, ?_⟩ <;> simp [MaidNodeNfs.RegisterPmid, MaidNodeNfs.construct,
    MaidNodeNfs.setTimer, Timer.AddTask, Timer.NewTaskId, Function.update]

/-- C8: quorum parameters per operation, read off the pending entry each
call appends — `CreateAccount` registers a task whose aggregator threshold
is `group_size - 1` but whose expected response count is `group_size * 2`,
while `RegisterPmid` and `GetPmidHealth` use `group_size - 1` for both. -/
theorem quorum_parameters_per_operation (group_size : Nat) (st : MaidNodeNfs)
    (account_creation pmid_registration pmid_name timeout : Nat) :
    (∃ t : TimerTask,
      ((MaidNodeNfs.CreateAccount group_size st account_creation timeout).1.timers
            TimerId.create_account).tasks
          = (st.timers TimerId.create_account).tasks ++ [t]
        ∧ t.op_threshold = group_size - 1 ∧ t.expected_count = group_size * 2)
    ∧ (∃ t : TimerTask,
      ((MaidNodeNfs.RegisterPmid group_size st pmid_registration timeout).1.timers
            TimerId.register_pmid).tasks
          = (st.timers TimerId.register_pmid).tasks ++ [t]
        ∧ t.op_threshold = group_size - 1 ∧ t.expected_count = group_size - 1)
    ∧ (∃ t : TimerTask,
      ((MaidNodeNfs.GetPmidHealth group_size st pmid_name timeout).1.timers
            TimerId.pmid_health).tasks
          = (st.timers TimerId.pmid_health).tasks ++ [t]
        ∧ t.op_threshold = group_size - 1 ∧ t.expected_count = group_size - 1) := by
  refine ⟨⟨⟨(st.timers TimerId.create_account).next_task_id, timeout,
        group_size * 2, group_size - 1⟩, ?_, rfl, rfl⟩,
      ⟨⟨(st.timers TimerId.create_account).next_task_id, timeout,
        group_size - 1, group_size - 1⟩, ?_, rfl, rfl⟩,
      ⟨⟨(st.timers TimerId.pmid_health).next_task_id, timeout,
        group_size - 1, group_size - 1⟩, ?_, rfl, rfl⟩⟩ <;>
    simp [MaidNodeNfs.CreateAccount, MaidNodeNfs.RegisterPmid,
      MaidNodeNfs.GetPmidHealth, MaidNodeNfs.setTimer, Timer.AddTask,
      Timer.NewTaskId, Function.update]

/-- C9: when the awaited future holds `account_already_exists` or
`unique_data_clash`, the `CreateAccount` helper flow catches the error,
notes that the account already existed, and returns normally instead of
propagating the exception. -/
theorem createAccount_already_exists_nonfatal :
    CreateAccount (AwaitOutcome.threw_maidsafe VaultError.account_already_exists)
        = HelperResult.returned ["account already existed"]
      ∧ CreateAccount (AwaitOutcome.threw_maidsafe VaultError.unique_data_clash)
        = HelperResult.returned ["account already existed"] := by
  constructor <;> simp [CreateAccount]

/-- C10: `set_pmid_node_hint` followed by `pmid_node_hint` returns the
value just set, construction stores the supplied hint, and none of the
five facade operations changes the stored hint. -/
theorem pmid_node_hint_semantics (group_size : Nat) (st : MaidNodeNfs)
    (v h account_creation account_removal pmid_registration pmid_name timeout : Nat) :
    (st.set_pmid_node_hint v).pmid_node_hint = v
      ∧ (MaidNodeNfs.construct h).pmid_node_hint = h
      ∧ (MaidNodeNfs.CreateAccount group_size st account_creation
          timeout).1.pmid_node_hint = st.pmid_node_hint
      ∧ (st.RemoveAccount account_removal).1.pmid_node_hint = st.pmid_node_hint
      ∧ (MaidNodeNfs.RegisterPmid group_size st pmid_registration
          timeout).1.pmid_node_hint = st.pmid_node_hint
      ∧ (st.UnregisterPmid pmid_name).1.pmid_node_hint = st.pmid_node_hint
      ∧ (MaidNodeNfs.GetPmidHealth group_size st pmid_name
          timeout).1.pmid_node_hint = st.pmid_node_hint :=
  ⟨rfl, rfl, rfl, rfl, rfl, rfl, rfl⟩

end MaidsafeNfs
